import Mathlib

/-!
Shallow embedding of `src/pages/workspace/WorkspacesListRow.tsx`.

The file renders one workspace-list row.  Its logic is:
  * `workspaceTypeIcon` — a switch from the workspace-type string to an icon
    asset, with a `default` branch returning the Mailbox icon;
  * `userFriendlyWorkspaceType` — a switch from the workspace-type string to
    a translated label, with a `default` branch returning the "free" label;
  * the owner-details resolution
    `ownerAccountID && getPersonalDetailsByIDs([ownerAccountID], viewer)[0]`
    (JavaScript `&&` short-circuits on a falsy left operand, so `undefined`
    and `0` both suppress the lookup);
  * the early `return null` when `layoutWidth === CONST.LAYOUT_WIDTH.NONE`;
  * the JSX tree, modelled as a record of sections, with the narrow layout
    inlining the brick-road indicator and the three-dots menu into the
    identity block and the wide layout emitting them as trailing sections;
  * the `threeDotsMenuPosition` React state (initially `{horizontal: 0,
    vertical: 0}`), updated only inside the `measureInWindow` callback of
    the wide layout's three-dots `onIconPress` handler.

External collaborators (translation lookup, personal-details directory,
display-name defaulting) are passed in as function parameters; the component
only applies them.
-/

/-- Modelled from the spec: the string values of the external
`CONST.POLICY.TYPE` enumerants referenced by the switches (the `CONST`
module is outside this repository's sources). -/
def POLICY_TYPE_FREE : String := "free"

/-- Modelled from the spec: `CONST.POLICY.TYPE.CORPORATE`. -/
def POLICY_TYPE_CORPORATE : String := "corporate"

/-- Modelled from the spec: `CONST.POLICY.TYPE.TEAM`. -/
def POLICY_TYPE_TEAM : String := "team"

/-- The three values of the external `CONST.LAYOUT_WIDTH` enumeration. -/
inductive LayoutWidth where
  | NONE
  | WIDE
  | NARROW
  deriving DecidableEq, Repr

/-- The two values of the external `CONST.BRICK_ROAD_INDICATOR_STATUS`
enumeration. -/
inductive BrickRoadStatus where
  | INFO
  | ERROR
  deriving DecidableEq, Repr

/-- Theme fill colors used by `BrickRoadIndicatorIcon`. -/
inductive ThemeFill where
  | danger
  | iconSuccessFill
  deriving DecidableEq, Repr

/-- Icon assets from `Illustrations` used by `workspaceTypeIcon`. -/
inductive IconAsset where
  | HandCard
  | ShieldYellow
  | Mailbox
  deriving DecidableEq, Repr

/-- A personal-details record as consumed by the row: the avatar source, the
login handle and the display name (the last is only read through this
component's injected `getDisplayNameOrDefault` collaborator). -/
structure PersonalDetails where
  avatar : String
  login : Option String
  displayName : Option String
  deriving DecidableEq, Repr

/-- The `AnchorPosition` record held in the `threeDotsMenuPosition` state. -/
structure AnchorPosition where
  horizontal : Int
  vertical : Int
  deriving DecidableEq, Repr

/-- An on-screen rectangle as reported by `measureInWindow`. -/
structure Rect where
  x : Int
  y : Int
  width : Int
  height : Int
  deriving DecidableEq, Repr

/-- The props of `WorkspacesListRow`, plus the viewer account id injected by
the `withCurrentUserPersonalDetails` wrapper.  `layoutWidth` is optional and
defaults to `LayoutWidth.NONE` in the component body; `menuItems` are opaque
descriptors passed through verbatim, modelled as strings. -/
structure WorkspacesListRowProps where
  title : String
  ownerAccountID : Option Nat
  workspaceType : String
  workspaceIcon : Option String
  fallbackWorkspaceIcon : Option String
  menuItems : List String
  layoutWidth : Option LayoutWidth
  brickRoadIndicator : Option BrickRoadStatus
  currentUserAccountID : Nat
  deriving DecidableEq, Repr

/-- `workspaceTypeIcon`: the switch at lines 54-65 of the source. -/
def workspaceTypeIcon (workspaceType : String) : IconAsset :=
  if workspaceType = POLICY_TYPE_FREE then IconAsset.HandCard
  else if workspaceType = POLICY_TYPE_CORPORATE then IconAsset.ShieldYellow
  else if workspaceType = POLICY_TYPE_TEAM then IconAsset.Mailbox
  else IconAsset.Mailbox

/-- `userFriendlyWorkspaceType`: the switch at lines 97-108 of the source,
with the translation service passed in as `translate`. -/
def userFriendlyWorkspaceType (translate : String → String) (workspaceType : String) : String :=
  if workspaceType = POLICY_TYPE_FREE then translate "workspace.type.free"
  else if workspaceType = POLICY_TYPE_CORPORATE then translate "workspace.type.control"
  else if workspaceType = POLICY_TYPE_TEAM then translate "workspace.type.collect"
  else translate "workspace.type.free"

/-- `BrickRoadIndicatorIcon` (lines 67-76): renders a dot whose fill is
`danger` for ERROR and `iconSuccessFill` otherwise, or nothing when the
indicator is absent. -/
def brickRoadIndicatorIcon (brickRoadIndicator : Option BrickRoadStatus) : Option ThemeFill :=
  match brickRoadIndicator with
  | Option.none => Option.none
  | Option.some b =>
      Option.some (if b = BrickRoadStatus.ERROR then ThemeFill.danger else ThemeFill.iconSuccessFill)

/-- The owner-details expression at line 95:
`ownerAccountID && getPersonalDetailsByIDs([ownerAccountID], viewer)[0]`.
JavaScript `&&` evaluates its right operand only when the left operand is
truthy; `undefined` and the number `0` are falsy, so either suppresses the
directory lookup and yields a falsy result. -/
def ownerDetails (ownerAccountID : Option Nat)
    (getPersonalDetailsByIDs : Nat → Nat → Option PersonalDetails)
    (viewerAccountID : Nat) : Option PersonalDetails :=
  match ownerAccountID with
  | Option.none => Option.none
  | Option.some id =>
      if id = 0 then Option.none else getPersonalDetailsByIDs id viewerAccountID

/-- The props handed to a rendered `ThreeDotsMenu`: the menu items, the
anchor position, whether an `onIconPress` measurement handler is attached,
and whether `shouldOverlay` is set. -/
structure ThreeDotsRender where
  menuItems : List String
  anchorPosition : AnchorPosition
  hasOnIconPress : Bool
  shouldOverlay : Bool
  deriving DecidableEq, Repr

/-- The rendered avatar of the identity block (lines 122-129). -/
structure AvatarRender where
  source : Option String
  fallbackIcon : Option String
  name : String
  deriving DecidableEq, Repr

/-- The identity block (lines 121-145): avatar, title, and — only in the
narrow layout — the inlined indicator and three-dots menu. -/
structure IdentitySection where
  avatar : AvatarRender
  title : String
  inlineExtras : Option (Option ThemeFill × ThreeDotsRender)
  deriving DecidableEq, Repr

/-- The owner block content (lines 147-169), present only when
`ownerDetails` is truthy. -/
structure OwnerSection where
  avatar : String
  primaryText : String
  secondaryText : Option String
  deriving DecidableEq, Repr

/-- The workspace-type block (lines 171-192). -/
structure TypeSection where
  icon : IconAsset
  label : String
  caption : String
  deriving DecidableEq, Repr

/-- The trailing blocks emitted only in the wide layout (lines 194-217):
the separated indicator section and the measured three-dots section. -/
structure TrailingSection where
  indicator : Option ThemeFill
  threeDots : ThreeDotsRender
  deriving DecidableEq, Repr

/-- The full render output of one row. -/
structure RowRender where
  identity : IdentitySection
  ownerSection : Option OwnerSection
  typeSection : TypeSection
  trailing : Option TrailingSection
  deriving DecidableEq, Repr

/-- The initial value of the `threeDotsMenuPosition` state (line 92). -/
def initialThreeDotsMenuPosition : AnchorPosition :=
  { horizontal := 0, vertical := 0 }

/-- The `measureInWindow` callback body (lines 202-207): the new anchor is
the measured rectangle's bottom-right corner. -/
def measureCallback (r : Rect) : AnchorPosition :=
  { horizontal := r.x + r.width, vertical := r.y + r.height }

/-- The body of `WorkspacesListRow` (lines 78-220) as a pure function of the
props, the current `threeDotsMenuPosition` state, and the injected
collaborators. Returns `Option.none` exactly where the component returns
`null`. -/
def WorkspacesListRow (translate : String → String)
    (getPersonalDetailsByIDs : Nat → Nat → Option PersonalDetails)
    (getDisplayNameOrDefault : PersonalDetails → String)
    (p : WorkspacesListRowProps)
    (threeDotsMenuPosition : AnchorPosition) : Option RowRender :=
  let layoutWidth := p.layoutWidth.getD LayoutWidth.NONE
  let details := ownerDetails p.ownerAccountID getPersonalDetailsByIDs p.currentUserAccountID
  let typeLabel := userFriendlyWorkspaceType translate p.workspaceType
  if layoutWidth = LayoutWidth.NONE then
    Option.none
  else
    let isWide := layoutWidth = LayoutWidth.WIDE
    let isNarrow := layoutWidth = LayoutWidth.NARROW
    Option.some
      { identity :=
          { avatar :=
              { source := p.workspaceIcon
                fallbackIcon := p.fallbackWorkspaceIcon
                name := p.title }
            title := p.title
            inlineExtras :=
              if isNarrow then
                Option.some
                  (brickRoadIndicatorIcon p.brickRoadIndicator,
                   { menuItems := p.menuItems
                     anchorPosition := { horizontal := 0, vertical := 0 }
                     hasOnIconPress := false
                     shouldOverlay := false })
              else Option.none }
        ownerSection :=
          details.map fun od =>
            { avatar := od.avatar
              primaryText := getDisplayNameOrDefault od
              secondaryText := od.login }
        typeSection :=
          { icon := workspaceTypeIcon p.workspaceType
            label := typeLabel
            caption := translate "workspace.common.plan" }
        trailing :=
          if isWide then
            Option.some
              { indicator := brickRoadIndicatorIcon p.brickRoadIndicator
                threeDots :=
                  { menuItems := p.menuItems
                    anchorPosition := threeDotsMenuPosition
                    hasOnIconPress := true
                    shouldOverlay := true } }
          else Option.none }

/-- A user interaction with the row: pressing the three-dots icon.  The
payload records what the asynchronous `measureInWindow` request reports for
the trigger element: `Option.some r` when the callback fires with rectangle
`r`, `Option.none` when the element is gone and the callback never fires. -/
inductive Interaction where
  | iconPress (measured : Option Rect)
  deriving DecidableEq, Repr

/-- One interaction step on the `threeDotsMenuPosition` state.  The
measurement handler exists only on the wide layout's three-dots menu (the
rendered `trailing` section); pressing the narrow layout's menu, pressing
while nothing is rendered, or a callback that never fires all leave the
state unchanged. -/
def interactStep (translate : String → String)
    (getPersonalDetailsByIDs : Nat → Nat → Option PersonalDetails)
    (getDisplayNameOrDefault : PersonalDetails → String)
    (p : WorkspacesListRowProps)
    (s : AnchorPosition) : Interaction → AnchorPosition
  | Interaction.iconPress measured =>
    match WorkspacesListRow translate getPersonalDetailsByIDs getDisplayNameOrDefault p s with
    | Option.none => s
    | Option.some out =>
      match out.trailing with
      | Option.none => s
      | Option.some _ =>
        match measured with
        | Option.none => s
        | Option.some r => measureCallback r

/-- Characterization of one interaction step: the anchor state changes only
in the wide layout, and only when the measurement callback fires. -/
theorem interactStep_spec (translate : String → String)
    (dir : Nat → Nat → Option PersonalDetails) (gdn : PersonalDetails → String)
    (p : WorkspacesListRowProps) (s : AnchorPosition) (measured : Option Rect) :
    interactStep translate dir gdn p s (Interaction.iconPress measured) =
      (if p.layoutWidth.getD LayoutWidth.NONE = LayoutWidth.WIDE then
        (measured.map measureCallback).getD s
      else s) := by
  rcases hl : p.layoutWidth.getD LayoutWidth.NONE with _ | _ | _ <;>
    rcases measured with _ | r <;>
      simp [interactStep, WorkspacesListRow, hl]

/-- C1: whenever the resolved layout width is NONE (the UNRESOLVED layout
signal, which is also the default when the prop is omitted), the component
renders nothing, regardless of every other input. -/
theorem layoutWidth_NONE_renders_nothing (translate : String → String)
    (dir : Nat → Nat → Option PersonalDetails) (gdn : PersonalDetails → String)
    (p : WorkspacesListRowProps) (s : AnchorPosition)
    (h : p.layoutWidth.getD LayoutWidth.NONE = LayoutWidth.NONE) :
    WorkspacesListRow translate dir gdn p s = Option.none := by
  simp [WorkspacesListRow, h]

theorem layoutWidth_NONE_renders_nothing_witness :
    WorkspacesListRow (fun k => k) (fun _ _ => Option.none) (fun _ => "")
      { title := "Acme"
        ownerAccountID := Option.some 42
        workspaceType := "corporate"
        workspaceIcon := Option.some "icon.png"
        fallbackWorkspaceIcon := Option.none
        menuItems := ["delete"]
        layoutWidth := Option.none
        brickRoadIndicator := Option.some BrickRoadStatus.ERROR
        currentUserAccountID := 7 }
      initialThreeDotsMenuPosition = Option.none :=
  layoutWidth_NONE_renders_nothing _ _ _ _ _ (by decide)

/-- C2: for any workspace-type value outside the three known enumerants, the
icon switch falls back to the Mailbox asset (the same icon TEAM gets) while
the label switch falls back to the translation of "workspace.type.free"
(the same label FREE gets) — the asymmetric defensive fallback. -/
theorem out_of_enum_fallback_asymmetric (translate : String → String) (t : String)
    (h1 : t ≠ POLICY_TYPE_FREE) (h2 : t ≠ POLICY_TYPE_CORPORATE)
    (h3 : t ≠ POLICY_TYPE_TEAM) :
    workspaceTypeIcon t = IconAsset.Mailbox ∧
    workspaceTypeIcon POLICY_TYPE_TEAM = IconAsset.Mailbox ∧
    userFriendlyWorkspaceType translate t = translate "workspace.type.free" ∧
    userFriendlyWorkspaceType translate POLICY_TYPE_FREE = translate "workspace.type.free" := by
  have h1' : ¬t = "free" := by simpa [POLICY_TYPE_FREE] using h1
  have h2' : ¬t = "corporate" := by simpa [POLICY_TYPE_CORPORATE] using h2
  have h3' : ¬t = "team" := by simpa [POLICY_TYPE_TEAM] using h3
  refine ⟨?_, ?_, ?_, ?_⟩ <;>
    simp [workspaceTypeIcon, userFriendlyWorkspaceType, h1', h2', h3',
      POLICY_TYPE_FREE, POLICY_TYPE_CORPORATE, POLICY_TYPE_TEAM]

theorem out_of_enum_fallback_asymmetric_witness :
    workspaceTypeIcon "personal" = IconAsset.Mailbox ∧
    workspaceTypeIcon POLICY_TYPE_TEAM = IconAsset.Mailbox ∧
    userFriendlyWorkspaceType (fun k => String.append "tr:" k) "personal" =
      (fun k => String.append "tr:" k) "workspace.type.free" ∧
    userFriendlyWorkspaceType (fun k => String.append "tr:" k) POLICY_TYPE_FREE =
      (fun k => String.append "tr:" k) "workspace.type.free" :=
  out_of_enum_fallback_asymmetric _ _ (by decide) (by decide) (by decide)

/-- C3: in the wide layout, a measurement callback completing with rectangle
(x, y, width, height) replaces the anchor state with
{horizontal: x + width, vertical: y + height}. -/
theorem measure_updates_anchor_bottom_right (translate : String → String)
    (dir : Nat → Nat → Option PersonalDetails) (gdn : PersonalDetails → String)
    (p : WorkspacesListRowProps) (s : AnchorPosition) (r : Rect)
    (h : p.layoutWidth.getD LayoutWidth.NONE = LayoutWidth.WIDE) :
    interactStep translate dir gdn p s (Interaction.iconPress (Option.some r)) =
      { horizontal := r.x + r.width, vertical := r.y + r.height } := by
  rw [interactStep_spec]
  simp [h, measureCallback]

theorem measure_updates_anchor_bottom_right_witness :
    interactStep (fun k => k) (fun _ _ => Option.none) (fun _ => "")
      { title := "Acme"
        ownerAccountID := Option.none
        workspaceType := "team"
        workspaceIcon := Option.none
        fallbackWorkspaceIcon := Option.none
        menuItems := []
        layoutWidth := Option.some LayoutWidth.WIDE
        brickRoadIndicator := Option.none
        currentUserAccountID := 7 }
      initialThreeDotsMenuPosition
      (Interaction.iconPress (Option.some { x := 10, y := 20, width := 30, height := 40 })) =
      { horizontal := 40, vertical := 60 } :=
  measure_updates_anchor_bottom_right _ _ _ _ _ _ (by decide)

/-- C4: the three known workspace types map to three distinct icon/label
pairs: FREE to the hand-card asset and the "free" label, CORPORATE to the
shield asset and the "control" label, TEAM to the mailbox asset and the
"collect" label. -/
theorem workspace_type_icon_label_pairs (translate : String → String) :
    (workspaceTypeIcon POLICY_TYPE_FREE = IconAsset.HandCard ∧
      userFriendlyWorkspaceType translate POLICY_TYPE_FREE = translate "workspace.type.free") ∧
    (workspaceTypeIcon POLICY_TYPE_CORPORATE = IconAsset.ShieldYellow ∧
      userFriendlyWorkspaceType translate POLICY_TYPE_CORPORATE = translate "workspace.type.control") ∧
    (workspaceTypeIcon POLICY_TYPE_TEAM = IconAsset.Mailbox ∧
      userFriendlyWorkspaceType translate POLICY_TYPE_TEAM = translate "workspace.type.collect") ∧
    (workspaceTypeIcon POLICY_TYPE_FREE, userFriendlyWorkspaceType translate POLICY_TYPE_FREE) ≠
      (workspaceTypeIcon POLICY_TYPE_CORPORATE,
        userFriendlyWorkspaceType translate POLICY_TYPE_CORPORATE) ∧
    (workspaceTypeIcon POLICY_TYPE_FREE, userFriendlyWorkspaceType translate POLICY_TYPE_FREE) ≠
      (workspaceTypeIcon POLICY_TYPE_TEAM, userFriendlyWorkspaceType translate POLICY_TYPE_TEAM) ∧
    (workspaceTypeIcon POLICY_TYPE_CORPORATE,
        userFriendlyWorkspaceType translate POLICY_TYPE_CORPORATE) ≠
      (workspaceTypeIcon POLICY_TYPE_TEAM, userFriendlyWorkspaceType translate POLICY_TYPE_TEAM) := by
  refine ⟨⟨?_, ?_⟩, ⟨?_, ?_⟩, ⟨?_, ?_⟩, ?_, ?_, ?_⟩ <;>
    simp [workspaceTypeIcon, userFriendlyWorkspaceType, Prod.ext_iff,
      POLICY_TYPE_FREE, POLICY_TYPE_CORPORATE, POLICY_TYPE_TEAM]

/-- C5: when ownerAccountID is absent, the render output is identical for
any two personal-details directories (the lookup is never consulted), and
the owner section is absent from whatever is rendered. -/
theorem absent_owner_omits_section (translate : String → String)
    (dir1 dir2 : Nat → Nat → Option PersonalDetails) (gdn : PersonalDetails → String)
    (p : WorkspacesListRowProps) (s : AnchorPosition)
    (h : p.ownerAccountID = Option.none) :
    WorkspacesListRow translate dir1 gdn p s = WorkspacesListRow translate dir2 gdn p s ∧
    ((WorkspacesListRow translate dir1 gdn p s).map RowRender.ownerSection).getD Option.none =
      Option.none := by
  rcases hl : p.layoutWidth.getD LayoutWidth.NONE with _ | _ | _ <;>
    refine ⟨?_, ?_⟩ <;>
      simp [WorkspacesListRow, ownerDetails, h, hl]

theorem absent_owner_omits_section_witness :
    (WorkspacesListRow (fun k => k) (fun _ _ => Option.none)
        (fun d => d.displayName.getD "Hidden")
        { title := "Acme"
          ownerAccountID := Option.none
          workspaceType := "free"
          workspaceIcon := Option.none
          fallbackWorkspaceIcon := Option.none
          menuItems := ["rename"]
          layoutWidth := Option.some LayoutWidth.WIDE
          brickRoadIndicator := Option.none
          currentUserAccountID := 7 }
        initialThreeDotsMenuPosition =
      WorkspacesListRow (fun k => k)
        (fun _ _ => Option.some
          { avatar := "a.png", login := Option.some "x@y.z", displayName := Option.some "X" })
        (fun d => d.displayName.getD "Hidden")
        { title := "Acme"
          ownerAccountID := Option.none
          workspaceType := "free"
          workspaceIcon := Option.none
          fallbackWorkspaceIcon := Option.none
          menuItems := ["rename"]
          layoutWidth := Option.some LayoutWidth.WIDE
          brickRoadIndicator := Option.none
          currentUserAccountID := 7 }
        initialThreeDotsMenuPosition) ∧
    ((WorkspacesListRow (fun k => k) (fun _ _ => Option.none)
          (fun d => d.displayName.getD "Hidden")
          { title := "Acme"
            ownerAccountID := Option.none
            workspaceType := "free"
            workspaceIcon := Option.none
            fallbackWorkspaceIcon := Option.none
            menuItems := ["rename"]
            layoutWidth := Option.some LayoutWidth.WIDE
            brickRoadIndicator := Option.none
            currentUserAccountID := 7 }
          initialThreeDotsMenuPosition).map RowRender.ownerSection).getD Option.none =
      Option.none :=
  absent_owner_omits_section _ _ _ _ _ _ (by decide)

/-- C9: a present but zero ownerAccountID is falsy in the JavaScript
truthiness test of line 95, so the row renders exactly as if the owner were
absent, for any directory, and the directory is never consulted. -/
theorem zero_owner_treated_as_absent (translate : String → String)
    (dir1 dir2 : Nat → Nat → Option PersonalDetails) (gdn : PersonalDetails → String)
    (p : WorkspacesListRowProps) (s : AnchorPosition) :
    WorkspacesListRow translate dir1 gdn { p with ownerAccountID := Option.some 0 } s =
      WorkspacesListRow translate dir2 gdn { p with ownerAccountID := Option.none } s ∧
    ((WorkspacesListRow translate dir1 gdn { p with ownerAccountID := Option.some 0 } s).map
        RowRender.ownerSection).getD Option.none = Option.none := by
  rcases hl : p.layoutWidth.getD LayoutWidth.NONE with _ | _ | _ <;>
    refine ⟨?_, ?_⟩ <;>
      simp [WorkspacesListRow, ownerDetails, hl]

/-- C6: the placement of the brick-road indicator and the three-dots menu is
decided by the layout class alone: in NARROW they are inlined into the
identity block and no trailing sections exist; in WIDE the identity block
has no inlined extras and they appear as trailing sections instead; in NONE
nothing is rendered at all.  The two arrangements are mutually exclusive. -/
theorem narrow_inlines_wide_separates (translate : String → String)
    (dir : Nat → Nat → Option PersonalDetails) (gdn : PersonalDetails → String)
    (p : WorkspacesListRowProps) (s : AnchorPosition) :
    (WorkspacesListRow translate dir gdn p s).map
        (fun out => (out.identity.inlineExtras, out.trailing)) =
      (if p.layoutWidth.getD LayoutWidth.NONE = LayoutWidth.NONE then Option.none
       else if p.layoutWidth.getD LayoutWidth.NONE = LayoutWidth.NARROW then
         Option.some
           (Option.some (brickRoadIndicatorIcon p.brickRoadIndicator,
             { menuItems := p.menuItems
               anchorPosition := { horizontal := 0, vertical := 0 }
               hasOnIconPress := false
               shouldOverlay := false }),
            Option.none)
       else
         Option.some
           (Option.none,
            Option.some
              { indicator := brickRoadIndicatorIcon p.brickRoadIndicator
                threeDots :=
                  { menuItems := p.menuItems
                    anchorPosition := s
                    hasOnIconPress := true
                    shouldOverlay := true } })) := by
  rcases hl : p.layoutWidth.getD LayoutWidth.NONE with _ | _ | _ <;>
    simp [WorkspacesListRow, hl]

/-- C7: the anchor state starts at the origin, and no operation other than a
measurement callback that fires with a rectangle ever changes it; when such
a callback fires, the new value is exactly the measured bottom-right
corner. -/
theorem anchor_origin_updated_only_by_measurement :
    initialThreeDotsMenuPosition = { horizontal := 0, vertical := 0 } ∧
    ∀ (translate : String → String) (dir : Nat → Nat → Option PersonalDetails)
      (gdn : PersonalDetails → String) (p : WorkspacesListRowProps)
      (s : AnchorPosition) (i : Interaction),
      interactStep translate dir gdn p s i = s ∨
      ∃ r, i = Interaction.iconPress (Option.some r) ∧
        interactStep translate dir gdn p s i = measureCallback r := by
  refine ⟨rfl, ?_⟩
  intro translate dir gdn p s i
  rcases i with ⟨_ | r⟩
  · left
    rw [interactStep_spec]
    simp
  · by_cases hw : p.layoutWidth.getD LayoutWidth.NONE = LayoutWidth.WIDE
    · right
      exact ⟨r, rfl, by rw [interactStep_spec]; simp [hw]⟩
    · left
      rw [interactStep_spec]
      simp [hw]

/-- C8: one interaction step is idempotent: pressing the trigger twice with
the element reporting the same geometry leaves the same anchor state as
pressing it once. -/
theorem measurement_trigger_idempotent (translate : String → String)
    (dir : Nat → Nat → Option PersonalDetails) (gdn : PersonalDetails → String)
    (p : WorkspacesListRowProps) (s : AnchorPosition) (i : Interaction) :
    interactStep translate dir gdn p (interactStep translate dir gdn p s i) i =
      interactStep translate dir gdn p s i := by
  rcases i with ⟨measured⟩
  simp only [interactStep_spec]
  by_cases hw : p.layoutWidth.getD LayoutWidth.NONE = LayoutWidth.WIDE <;>
    rcases measured with _ | r <;> simp [hw]

/-- C10: in the narrow layout the anchor state is dead: the render output
does not depend on it, the inlined three-dots menu is anchored at the
constant origin and carries no measurement handler, and no interaction
changes the state. -/
theorem narrow_never_reads_or_writes_anchor (translate : String → String)
    (dir : Nat → Nat → Option PersonalDetails) (gdn : PersonalDetails → String)
    (p : WorkspacesListRowProps) (s s2 : AnchorPosition) (i : Interaction)
    (h : p.layoutWidth.getD LayoutWidth.NONE = LayoutWidth.NARROW) :
    WorkspacesListRow translate dir gdn p s = WorkspacesListRow translate dir gdn p s2 ∧
    ((WorkspacesListRow translate dir gdn p s).map
        (fun out => out.identity.inlineExtras.map
          (fun ex => (ex.2.anchorPosition, ex.2.hasOnIconPress)))) =
      Option.some (Option.some ({ horizontal := 0, vertical := 0 }, false)) ∧
    interactStep translate dir gdn p s i = s := by
  refine ⟨?_, ?_, ?_⟩
  · simp [WorkspacesListRow, h]
  · simp [WorkspacesListRow, h]
  · rcases i with ⟨measured⟩
    rw [interactStep_spec]
    simp [h]

theorem narrow_never_reads_or_writes_anchor_witness :
    (WorkspacesListRow (fun k => k) (fun _ _ => Option.none) (fun _ => "")
        { title := "Acme"
          ownerAccountID := Option.none
          workspaceType := "free"
          workspaceIcon := Option.none
          fallbackWorkspaceIcon := Option.none
          menuItems := ["leave"]
          layoutWidth := Option.some LayoutWidth.NARROW
          brickRoadIndicator := Option.none
          currentUserAccountID := 3 }
        { horizontal := 5, vertical := 6 } =
      WorkspacesListRow (fun k => k) (fun _ _ => Option.none) (fun _ => "")
        { title := "Acme"
          ownerAccountID := Option.none
          workspaceType := "free"
          workspaceIcon := Option.none
          fallbackWorkspaceIcon := Option.none
          menuItems := ["leave"]
          layoutWidth := Option.some LayoutWidth.NARROW
          brickRoadIndicator := Option.none
          currentUserAccountID := 3 }
        { horizontal := 7, vertical := 8 }) ∧
    ((WorkspacesListRow (fun k => k) (fun _ _ => Option.none) (fun _ => "")
          { title := "Acme"
            ownerAccountID := Option.none
            workspaceType := "free"
            workspaceIcon := Option.none
            fallbackWorkspaceIcon := Option.none
            menuItems := ["leave"]
            layoutWidth := Option.some LayoutWidth.NARROW
            brickRoadIndicator := Option.none
            currentUserAccountID := 3 }
          { horizontal := 5, vertical := 6 }).map
        (fun out => out.identity.inlineExtras.map
          (fun ex => (ex.2.anchorPosition, ex.2.hasOnIconPress)))) =
      Option.some (Option.some ({ horizontal := 0, vertical := 0 }, false)) ∧
    interactStep (fun k => k) (fun _ _ => Option.none) (fun _ => "")
      { title := "Acme"
        ownerAccountID := Option.none
        workspaceType := "free"
        workspaceIcon := Option.none
        fallbackWorkspaceIcon := Option.none
        menuItems := ["leave"]
        layoutWidth := Option.some LayoutWidth.NARROW
        brickRoadIndicator := Option.none
        currentUserAccountID := 3 }
      { horizontal := 5, vertical := 6 }
      (Interaction.iconPress (Option.some { x := 10, y := 20, width := 30, height := 40 })) =
      { horizontal := 5, vertical := 6 } :=
  narrow_never_reads_or_writes_anchor _ _ _ _ _ _ _ (by decide)
